import Mathlib

/-!
# Verification of the jetson_app camera discovery and streaming server

Shallow embedding of `server_ip_camera.py`: the stream validators
(`test_camera_stream`), the discovery pipeline (`scan_for_cameras`,
`scan_host_ports`), the per-track frame pump (`IPVideoTrack.recv`), the
session signaling handler (`webrtc_handler`) and the track finalizer
(`IPVideoTrack.__del__`).  Network and OpenCV effects are abstracted as
oracle functions passed explicitly; each definition mirrors the control
flow of the corresponding Python function.  All definitions come first,
followed by the theorems about them.
-/

namespace JetsonApp

/-! ## String helpers

Python's `needle in haystack` substring test and `str.lower()`. -/


/-- Boolean list-prefix test on characters. -/
def charListHasPre : List Char → List Char → Bool
  | [], _ => true
  | _ :: _, [] => false
  | a :: as, b :: bs => a == b && charListHasPre as bs

/-- Boolean substring test on character lists: `needle` occurs inside the
second argument. -/
def charListHasSub (needle : List Char) : List Char → Bool
  | [] => needle.isEmpty
  | c :: rest => charListHasPre needle (c :: rest) || charListHasSub needle rest

/-- Python `needle in hay` on strings. -/
def strContains (hay needle : String) : Bool :=
  charListHasSub needle.data hay.data

/-- Python `str.lower()` (ASCII view, enough for the header strings used). -/
def strToLower (s : String) : String := ⟨s.data.map Char.toLower⟩

/-! ## Frames -/


/-- A decoded video frame; `numpy` shape `(height, width, channels)`. -/
structure Frame where
  height : ℕ
  width : ℕ
  channels : ℕ
deriving DecidableEq, Repr

/-- `frame.size` in numpy: total number of array elements. -/
def Frame.size (f : Frame) : ℕ := f.height * f.width * f.channels

/-- One `cap.read()` call of an RTSP capture, abstracted: `none` models
`ret == False` or a `None` frame; `some f` a returned frame `f`.  The
condition tested by the code at read `i` is
`ret and frame is not None and frame.size > 0`. -/
def goodRead (reads : ℕ → Option Frame) (i : ℕ) : Bool :=
  match reads i with
  | some f => decide (0 < f.size)
  | none => false

/-! ## Stream validation (`test_camera_stream`, lines 354-414)

The HTTP branch (lines 382-393) and the RTSP branch (lines 396-409) are
embedded separately; the network responses are oracle inputs. -/


/-- RTSP branch of `test_camera_stream` (lines 396-407): open the capture;
if it opened, loop `for _ in range(3)` over `cap.read()` and return success
as soon as one read yields a non-`None` frame of positive size. -/
def test_rtsp_stream (openedCap : Bool) (reads : ℕ → Option Frame) : Bool :=
  openedCap && (List.range 3).any (goodRead reads)

/-- Abstraction of one streamed HTTP GET response. -/
structure HttpResponse where
  status : ℕ
  contentType : String
  firstChunk : Option (List ℕ)
deriving DecidableEq, Repr

/-- The content-type markers tested by the code (line 387). -/
def streamContentTypes : List String := ["multipart", "image", "video"]

/-- `chunk and len(chunk) > 0` on the value of
`next(response.iter_content(chunk_size=1024), None)` (lines 389-390). -/
def chunkNonEmpty : Option (List ℕ) → Bool
  | some c => decide (0 < c.length)
  | none => false

/-- HTTP/HTTPS branch of `test_camera_stream` (lines 384-391):
`status_code == 200`, a content-type containing one of the markers after
lowercasing, and a first non-empty chunk. -/
def test_http_stream (r : HttpResponse) : Bool :=
  r.status == 200 &&
  streamContentTypes.any (fun ct => strContains (strToLower r.contentType) ct) &&
  chunkNonEmpty r.firstChunk

/-- Modelled from the spec (§4.3): RTSP success requires reading at least
3 consecutive non-empty frames. -/
def rtsp_spec_ok (openedCap : Bool) (reads : ℕ → Option Frame) : Bool :=
  openedCap && (List.range 3).all (goodRead reads)

/-- Modelled from the spec (§4.3): HTTP success requires a 2xx status (any
2xx), a streaming content-type, and one non-empty chunk. -/
def http_spec_ok (r : HttpResponse) : Bool :=
  (200 ≤ r.status && r.status < 300) &&
  streamContentTypes.any (fun ct => strContains (strToLower r.contentType) ct) &&
  chunkNonEmpty r.firstChunk

/-- An RTSP source delivering exactly one good frame, on the first read. -/
def singleGoodReads : ℕ → Option Frame := fun i =>
  if i = 0 then some ⟨480, 640, 3⟩ else none

/-- An RTSP source delivering a good frame on every read. -/
def allGoodReads : ℕ → Option Frame := fun _ => some ⟨480, 640, 3⟩

/-- The 201 response used to refute C3. -/
def resp201 : HttpResponse :=
  { status := 201, contentType := "multipart/x-mixed-replace", firstChunk := some [7, 7] }

/-- A plain 200 MJPEG response. -/
def resp200 : HttpResponse :=
  { status := 200, contentType := "image/jpeg", firstChunk := some [1, 2] }

/-! ## Binary64 arithmetic

`IPVideoTrack.recv` computes `int(height * (new_width / width))` with
Python floats (IEEE binary64): one correctly rounded division, one
correctly rounded multiplication, then truncation.  The model below is
exact round-to-nearest, ties-to-even, at 53 bits of precision over
positive rationals `a / b`, carried out in integer arithmetic (the values
involved are normal and far from overflow and underflow; an integer
operand below `2 ^ 53` converts to float exactly).  A rounded value is a
pair `(m, e)` denoting `m * 2 ^ (e - 52)` with `2 ^ 52 ≤ m ≤ 2 ^ 53`. -/


/-- Floor of base-2 logarithm, by fuel (structural, kernel-reducible);
`nlog2 n` is correct because the value halves at every step. -/
def log2fuel : ℕ → ℕ → ℕ
  | 0, _ => 0
  | fuel + 1, n => if 2 ≤ n then log2fuel fuel (n / 2) + 1 else 0

/-- Floor of base-2 logarithm of a positive natural. -/
def nlog2 (n : ℕ) : ℕ := log2fuel n n

/-- Is `a / b < 2 ^ e0`? (for `a, b > 0`). -/
def ltPow2 (a b : ℕ) (e0 : ℤ) : Bool :=
  if 0 ≤ e0 then a < b * 2 ^ e0.toNat else a * 2 ^ (-e0).toNat < b

/-- Round the positive rational `a / b` to the nearest binary64 value:
result `(m, e)` denotes `m * 2 ^ (e - 52)`. -/
def roundPos (a b : ℕ) : ℕ × ℤ :=
  if a = 0 ∨ b = 0 then (0, 0)
  else
    let e0 : ℤ := (nlog2 a : ℤ) - (nlog2 b : ℤ)
    let e : ℤ := if ltPow2 a b e0 then e0 - 1 else e0
    let nd : ℕ × ℕ :=
      if 0 ≤ 52 - e then (a * 2 ^ (52 - e).toNat, b) else (a, b * 2 ^ (e - 52).toNat)
    let f := nd.1 / nd.2
    let r2 := 2 * (nd.1 % nd.2)
    let m :=
      if r2 < nd.2 then f
      else if nd.2 < r2 then f + 1
      else if f % 2 = 0 then f else f + 1
    (m, e)

/-- Multiply the integer `h` (exact in binary64 for `h < 2 ^ 53`) by the
double `(m1, e1)` with one correctly rounded multiplication. -/
def mulDouble (h : ℕ) (d : ℕ × ℤ) : ℕ × ℤ :=
  if 52 ≤ d.2 then roundPos (h * d.1 * 2 ^ (d.2 - 52).toNat) 1
  else roundPos (h * d.1) (2 ^ (52 - d.2).toNat)

/-- Python `int()` on a non-negative double: truncation (= floor). -/
def floorDouble (d : ℕ × ℤ) : ℕ :=
  if 52 ≤ d.2 then d.1 * 2 ^ (d.2 - 52).toNat else d.1 / 2 ^ (52 - d.2).toNat

/-! ## Frame resize (`IPVideoTrack.recv`, lines 605-610) -/


/-- `int(height * (new_width / width))` with `new_width = 640`, in Python
binary64 arithmetic. -/
def pyResizeHeight (height width : ℕ) : ℕ :=
  floorDouble (mulDouble height (roundPos 640 width))

/-- The resize applied by `recv`: if `frame.shape[1] > 640`, scale to
width 640 with `new_height = int(height * (new_width / width))` in float
arithmetic; otherwise the frame passes through unchanged. -/
def resizeFrame (f : Frame) : Frame :=
  if 640 < f.width then
    { height := pyResizeHeight f.height f.width, width := 640, channels := f.channels }
  else f

/-- Modelled from the spec (§4.7, §8): scale down preserving aspect ratio,
`new height = floor(height * 640 / width)` in exact integer arithmetic. -/
def resizeFrameSpec (f : Frame) : Frame :=
  if 640 < f.width then
    { height := f.height * 640 / f.width, width := 640, channels := f.channels }
  else f

/-! ## The frame pump (`IPVideoTrack.recv`, lines 593-617)

`recv` reads one frame; on failure it sleeps 0.033 s and re-enters itself
(`return await self.recv()`).  The self-call is embedded fuel-indexed:
`recvFuel reads k fuel` unfolds the recursion at most `fuel` times
starting from the `k`-th read of the source. -/


/-- Outcome of a fuel-bounded unfolding of `recv`. -/
inductive RecvResult where
  | frame : Frame → RecvResult
  | fuelOut : RecvResult
deriving DecidableEq, Repr

/-- `IPVideoTrack.recv`: read; on failure recurse after the 33 ms sleep;
on success resize and return the frame.  `fuelOut` marks an unfolding that
exhausted its fuel without any read succeeding. -/
def recvFuel (reads : ℕ → Option Frame) (k : ℕ) : ℕ → RecvResult
  | 0 => RecvResult.fuelOut
  | fuel + 1 =>
    match reads k with
    | some f => RecvResult.frame (resizeFrame f)
    | none => recvFuel reads (k + 1) fuel

/-- Total milliseconds slept by the retry chain of `recv`
(`asyncio.sleep(0.033)` per failed read). -/
def recvSleeps (reads : ℕ → Option Frame) (k : ℕ) : ℕ → ℕ
  | 0 => 0
  | fuel + 1 =>
    match reads k with
    | some _ => 0
    | none => 33 + recvSleeps reads (k + 1) fuel

/-- A source failing its first two reads, then delivering a frame. -/
def failThenGood : ℕ → Option Frame := fun i =>
  if i = 2 then some ⟨480, 640, 3⟩ else none

/-! ## Session signaling (`webrtc_handler`, lines 1328-1391)

The handler builds tracks, creates and sends the offer, then loops over
incoming messages: `answer` applies the remote description, `ice` adds a
candidate, `bye` breaks the loop; any exception reaches the `except`
block; the `finally` block closes the peer connection.  A message that
fails to parse (or lacks a required field) raises and so fails the
session; a parseable message with any other action matches no branch and
is silently skipped. -/


/-- Session lifecycle states, following the spec's names. -/
inductive SState where
  | new
  | offerCreated
  | awaitingAnswer
  | connected
  | closed
  | failed
deriving DecidableEq, Repr

/-- A received signaling message as the code's dispatch sees it.
`malformed` covers unparsable JSON and messages raising `KeyError`;
`other a` is a parseable message whose action `a` matches no branch. -/
inductive Msg where
  | malformed
  | answer
  | ice
  | bye
  | other (action : String)
deriving DecidableEq, Repr

/-- One message-loop iteration.  `answer` outside `awaitingAnswer` makes
`setRemoteDescription` raise (the transport is already stable), which the
handler turns into the failed/closed path. -/
def step (s : SState) (m : Msg) : SState :=
  match m with
  | Msg.malformed => SState.failed
  | Msg.answer => if s = SState.awaitingAnswer then SState.connected else SState.failed
  | Msg.ice => s
  | Msg.bye => SState.closed
  | Msg.other _ => s

/-- Run the message loop from state `s`: on reaching `closed` or `failed`
the loop ends; when the messages are exhausted the channel is done and the
`finally` block closes the session. -/
def runMsgs (s : SState) : List Msg → List SState
  | [] => [SState.closed]
  | m :: ms =>
    if step s m = SState.closed ∨ step s m = SState.failed then [step s m]
    else step s m :: runMsgs (step s m) ms

/-- The observed state sequence of a session: setup moves
`new → offerCreated → awaitingAnswer` (when at least one track opened;
otherwise the handler returns at once and the session closes), then the
message loop runs. -/
def sessionTrace (hasTracks : Bool) (msgs : List Msg) : List SState :=
  if hasTracks then
    SState.new :: SState.offerCreated :: SState.awaitingAnswer ::
      runMsgs SState.awaitingAnswer msgs
  else [SState.new, SState.closed]

/-- Position of a state in the lifecycle chain (terminal states share the
last rank). -/
def rank : SState → ℕ
  | SState.new => 0
  | SState.offerCreated => 1
  | SState.awaitingAnswer => 2
  | SState.connected => 3
  | SState.closed => 4
  | SState.failed => 4

/-- The transitions the spec's lifecycle admits: stuttering in a live
looping state, one forward move along the chain, or a jump from any
non-terminal state to `closed` or `failed`.  No edge leaves `closed` or
`failed` and no edge moves backwards. -/
def allowedStep (s t : SState) : Bool :=
  (s == t && (s == SState.awaitingAnswer || s == SState.connected)) ||
  (s == SState.new && t == SState.offerCreated) ||
  (s == SState.offerCreated && t == SState.awaitingAnswer) ||
  (s == SState.awaitingAnswer && t == SState.connected) ||
  (!(s == SState.closed) && !(s == SState.failed) &&
    (t == SState.closed || t == SState.failed))

/-! ## Track teardown (C6)

`IPVideoTrack.__del__` (lines 619-621) releases the capture only when the
`cap` attribute exists and the capture is still open; the session's
cleanup (`webrtc_handler`'s `finally`, lines 1389-1391) awaits
`pc.close()` only — no `release()` call appears on the close path, which
defers releasing to the interpreter's finalizer. -/


/-- The capture-handle state of one `IPVideoTrack`. -/
structure TrackCap where
  hasCap : Bool
  capOpen : Bool
deriving DecidableEq, Repr

/-- `IPVideoTrack.__del__`: release iff the attribute exists and the
capture is open (releasing closes it); returns the updated state and the
number of `release()` calls made. -/
def trackDel (t : TrackCap) : TrackCap × ℕ :=
  if t.hasCap && t.capOpen then ({ t with capOpen := false }, 1) else (t, 0)

/-- Operations the `finally` block of `webrtc_handler` performs. -/
inductive CloseOp where
  | pcClose
  | release
deriving DecidableEq, Repr

/-- The close path of `webrtc_handler`: `await pc.close()` and nothing
else. -/
def sessionCloseOps : List CloseOp := [CloseOp.pcClose]

/-- `release()` calls performed by the session close path for a session
with the given tracks. -/
def releasesAtClose (_tracks : List TrackCap) : ℕ :=
  sessionCloseOps.count CloseOp.release

/-! ## Camera discovery (`scan_for_cameras`, lines 416-564)

Hosts and ports are naturals; network effects are oracles: `ping` for
`ping_host`, `portOpen` for `check_camera_port`, and two `StreamTest`
oracles for `test_camera_stream` — one for the first-find pass, one for
the phase-4 revalidation (the network may answer differently in each
pass).  The thread pools only affect ordering, which the claims do not
touch; the model runs hosts and ports in list order. -/


abbrev Host := ℕ

abbrev Port := ℕ

/-- Transport kind of a validated stream. -/
inductive StreamKind where
  | mjpeg
  | rtsp
deriving DecidableEq, Repr

/-- `CAMERA_PORTS` (line 81). -/
def CAMERA_PORTS : List Port :=
  [80, 554, 8082, 8083, 8084, 8554, 1935, 443, 888, 1024, 8000, 8008, 8888, 9000]

/-- `CAMERA_PATHS` (lines 84-124), in source order. -/
def CAMERA_PATHS : List String := [
  "/video",
  "/mjpeg",
  "/mjpg/video.mjpg",
  "/video.cgi",
  "/videostream.cgi",
  "/live",
  "/stream",
  "/live.mjpg",
  "/video/mjpg.cgi",
  "/mjpg/1/video.mjpg",
  "/mjpg/2/video.mjpg",
  "/cam/realmonitor?channel=1&subtype=0",
  "/cam/realmonitor?channel=1&subtype=1",
  "/axis-cgi/mjpg/video.cgi",
  "/cgi-bin/mjpg/video.cgi",
  "/cgi-bin/video.cgi",
  "/image/jpeg.cgi",
  "/image?speed=20",
  "/snapshot.cgi",
  "/onvif1",
  "/onvif2",
  "/h264",
  "/mpeg4",
  "/streaming/channels/1/httppreview",
  "/streaming/channels/101/httppreview",
  "/streaming/channels/1/picture",
  "/ISAPI/Streaming/channels/1/httppreview",
  "/ISAPI/Streaming/channels/101/httppreview",
  "/cgi-bin/hi3510/mjpegstream.cgi",
  "/cgi-bin/camera?resolution=640&amp;amp;quality=1&amp;amp;Language=0",
  "/view/viewer_index.shtml",
  "/video.mjpg",
  "/cam_1.cgi",
  "/image.jpg",
  "/live_mpeg4.sdp",
  "/live/ch0",
  "/live/ch1",
  "/media/video1",
  "/media/video2"]

/-- One manufacturer's fallback entry of `MANUFACTURER_DEFAULTS`. -/
structure ManuConfig where
  ports : List Port
  paths : List String
deriving DecidableEq, Repr

/-- `MANUFACTURER_DEFAULTS` (lines 127-148), in dict order. -/
def MANUFACTURER_DEFAULTS : List (String × ManuConfig) := [
  ("axis", ⟨[80, 554], ["/axis-cgi/mjpg/video.cgi", "/mjpg/video.mjpg"]⟩),
  ("hikvision", ⟨[80, 554, 8000],
    ["/ISAPI/Streaming/channels/1/httppreview", "/streaming/channels/1/httppreview"]⟩),
  ("dahua", ⟨[80, 554, 8000], ["/cam/realmonitor?channel=1&subtype=0", "/live"]⟩),
  ("foscam", ⟨[80, 88], ["/videostream.cgi?user=admin&pwd=", "/video.cgi"]⟩),
  ("generic", ⟨[80, 554], ["/video", "/mjpeg", "/stream"]⟩)]

/-- One `camera_info` record (`kind` models the dict's `type` key). -/
structure CameraInfo where
  ip : Host
  port : Port
  url : String
  kind : StreamKind
  path : String
  manufacturer : String
deriving DecidableEq, Repr

/-- Oracle for `test_camera_stream (host, port, path)`: `some (url, kind)`
on success, `none` on failure. -/
abbrev StreamTest := Host → Port → String → Option (String × StreamKind)

/-- Manufacturer detection from the matched URL (lines 490-497). -/
def detectManufacturer (url : String) : String :=
  if strContains (strToLower url) "axis" then "axis"
  else if strContains (strToLower url) "hikvision" || strContains url "ISAPI" then
    "hikvision"
  else if strContains (strToLower url) "dahua" || strContains url "realmonitor" then
    "dahua"
  else if strContains (strToLower url) "foscam" then "foscam"
  else "unknown"

/-- First-find over the standard paths (lines 476-501): only
`CAMERA_PATHS[:10]` is tried, stopping at the first working stream. -/
def stdPathHit (test : StreamTest) (h : Host) (p : Port) : Option CameraInfo :=
  (CAMERA_PATHS.take 10).findSome? fun path =>
    (test h p path).map fun uk =>
      { ip := h, port := p, url := uk.1, kind := uk.2, path := path,
        manufacturer := detectManufacturer uk.1 }

/-- Manufacturer fallback (lines 504-523): first manufacturer in dict
order whose port list contains `p` and one of whose paths streams. -/
def manuHit (test : StreamTest) (h : Host) (p : Port) : Option CameraInfo :=
  MANUFACTURER_DEFAULTS.findSome? fun mc =>
    if p ∈ mc.2.ports then
      mc.2.paths.findSome? fun path =>
        (test h p path).map fun uk =>
          { ip := h, port := p, url := uk.1, kind := uk.2, path := path,
            manufacturer := mc.1 }
    else none

/-- Stream search for one open port: standard paths first, manufacturer
fallback only when no standard path worked (the
`not any(cam['port'] == port ...)` guard, line 504). -/
def scanPort (test : StreamTest) (h : Host) (p : Port) : Option CameraInfo :=
  match stdPathHit test h p with
  | some cam => some cam
  | none => manuHit test h p

/-- `scan_host_ports` (lines 449-525): the open ports of the host, then
at most one camera per open port. -/
def scan_host_ports (portOpen : Host → Port → Bool) (test : StreamTest)
    (h : Host) : List CameraInfo :=
  (CAMERA_PORTS.filter (portOpen h)).filterMap (scanPort test h)

/-- `scan_for_cameras` (lines 416-564): `network = none` models a failed
`get_local_network()` — the function returns at once (line 422-424) and
the registry `discovered_cameras` keeps its previous value.  Otherwise:
ping sweep, per-host port/stream scan, then the phase-4 revalidation
filter; the validated list is published wholesale.  The result is the
pair (scan outcome, registry after the call). -/
def scan_for_cameras (network : Option (List Host)) (ping : Host → Bool)
    (portOpen : Host → Port → Bool) (test retest : StreamTest)
    (registry : List CameraInfo) : Option (List CameraInfo) × List CameraInfo :=
  match network with
  | none => (none, registry)
  | some hosts =>
    let active := hosts.filter ping
    let found := (active.map (scan_host_ports portOpen test)).flatten
    let validated := found.filter fun cam => (retest cam.ip cam.port cam.path).isSome
    (some validated, validated)

/-- The paths attempted on a list until the first working one
(inclusive). -/
def takeUntilHit (test : StreamTest) (h : Host) (p : Port) :
    List String → List String
  | [] => []
  | q :: rest =>
    if (test h p q).isSome then [q] else q :: takeUntilHit test h p rest

/-- Paths attempted by the manufacturer fallback loop (lines 505-523). -/
def manuTried (test : StreamTest) (h : Host) (p : Port) :
    List (String × ManuConfig) → List String
  | [] => []
  | mc :: rest =>
    if p ∈ mc.2.ports then
      takeUntilHit test h p mc.2.paths ++
        (if (mc.2.paths.findSome? fun path => test h p path).isSome then []
         else manuTried test h p rest)
    else manuTried test h p rest

/-- All paths `scan_host_ports` attempts against one open port. -/
def triedPaths (test : StreamTest) (h : Host) (p : Port) : List String :=
  takeUntilHit test h p (CAMERA_PATHS.take 10) ++
    (if (stdPathHit test h p).isSome then []
     else manuTried test h p MANUFACTURER_DEFAULTS)

/-- Hosts for the C4 witness scenario. -/
def oneHost : List Host := [5]

/-- Port oracle for the C4 witness scenario: only port 80 is open. -/
def w4portOpen : Host → Port → Bool := fun _ p => p == 80

/-- Stream oracle for the C4 witness scenario: only `/video` streams. -/
def w4test : StreamTest := fun _ _ path =>
  if path == "/video" then some ("http://cam5", StreamKind.mjpeg) else none

/-- Stream oracle that never succeeds (used by the C10 witness). -/
def noneTest : StreamTest := fun _ _ _ => none

/-! ## Session setup (`webrtc_handler`, lines 1334-1350)

The handler takes the first two registry entries
(`discovered_cameras[:2]`), builds one `IPVideoTrack` per camera — a
failed `IPVideoTrack.__init__` (its `cv2.VideoCapture` did not open,
lines 584-585) raises, is caught, and only skips that camera — and
returns without sending anything when no track was created; otherwise it
creates the offer over all created tracks and sends it. -/


/-- One attached track (its source binding). -/
structure Track where
  url : String
  kind : StreamKind
deriving DecidableEq, Repr

/-- Outbound signaling messages emitted during setup. -/
inductive OutMsg where
  | offer (tracks : List Track)
deriving DecidableEq, Repr

/-- The per-camera track loop (lines 1339-1346): `openOk` tells whether
the camera's capture opens; a camera whose open fails is skipped. -/
def buildTracks (openOk : CameraInfo → Bool) : List CameraInfo → List Track
  | [] => []
  | cam :: rest =>
    if openOk cam then ⟨cam.url, cam.kind⟩ :: buildTracks openOk rest
    else buildTracks openOk rest

/-- Session setup: tracks from the first two registry entries, then
either an early return with no offer (lines 1348-1350) or the emitted
offer over all tracks (lines 1357-1367). -/
def sessionSetup (registry : List CameraInfo) (openOk : CameraInfo → Bool) :
    List Track × List OutMsg :=
  let tracks := buildTracks openOk (registry.take 2)
  if tracks.isEmpty then (tracks, [])
  else (tracks, [OutMsg.offer tracks])

/-- First camera of the C8 witness scenario (its source fails to open). -/
def camA : CameraInfo := ⟨1, 80, "http://a", StreamKind.mjpeg, "/video", "unknown"⟩

/-- Second camera of the C8 witness scenario (its source opens). -/
def camB : CameraInfo := ⟨2, 554, "rtsp://b", StreamKind.rtsp, "/live", "unknown"⟩

/-- Open oracle of the C8 witness scenario: only `camB`'s port opens. -/
def openOnlyB : CameraInfo → Bool := fun cam => cam.port == 554

/-! ## Theorems -/

/-- C2 counterexample: a capture session from which only one non-empty
frame can be read (the two following reads fail) is accepted by the code,
although fewer than 3 consecutive non-empty frames were read. -/
theorem rtsp_single_frame_accepted :
    test_rtsp_stream true singleGoodReads = true ∧
    rtsp_spec_ok true singleGoodReads = false := by
  decide

/-- C2 (amended): RTSP validation succeeds iff the capture opened and at
least one of the first 3 reads yields a non-empty frame; 3 consecutive
good frames are not required. -/
theorem rtsp_ok_iff_one_good_frame (openedCap : Bool) (reads : ℕ → Option Frame) :
    test_rtsp_stream openedCap reads = true ↔
      (openedCap = true ∧ ∃ i, i < 3 ∧ goodRead reads i = true) := by
  simp only [test_rtsp_stream, Bool.and_eq_true, List.any_eq_true, List.mem_range]

/-- Witness for C2's amended theorem at a concrete all-good source. -/
theorem rtsp_ok_iff_one_good_frame_witness :
    test_rtsp_stream true allGoodReads = true :=
  (rtsp_ok_iff_one_good_frame true allGoodReads).mpr
    ⟨rfl, 0, by decide, by decide⟩

/-- C3 counterexample: a 201 response with a multipart content-type and a
non-empty chunk satisfies the spec's criteria (any 2xx) but is rejected by
the code, which accepts exactly status 200. -/
theorem http_status_201_rejected :
    http_spec_ok resp201 = true ∧ test_http_stream resp201 = false := by
  decide

/-- C3 (amended): HTTP validation succeeds iff the status is exactly 200
(not an arbitrary 2xx), the lowercased content-type contains one of
`multipart`, `image`, `video`, and the first chunk read is non-empty. -/
theorem http_ok_iff_200 (r : HttpResponse) :
    test_http_stream r = true ↔
      (r.status = 200 ∧
        (∃ ct, ct ∈ streamContentTypes ∧
          strContains (strToLower r.contentType) ct = true) ∧
        chunkNonEmpty r.firstChunk = true) := by
  simp only [test_http_stream, Bool.and_eq_true, List.any_eq_true, beq_iff_eq,
    and_assoc]

/-- Witness for C3's amended theorem at a concrete 200 response. -/
theorem http_ok_iff_200_witness : test_http_stream resp200 = true :=
  (http_ok_iff_200 resp200).mpr
    ⟨rfl, ⟨"image", by decide, by decide⟩, by decide⟩

/-- C9 counterexample: a 716×537 frame.  Exactly, `537 * 640 / 716 = 480`,
but the code's float evaluation `int(537 * (640 / 716))` yields 479, so
the produced frame is 640×479, not 640×480. -/
theorem resize_716x537_height_479 :
    resizeFrame ⟨537, 716, 3⟩ = ⟨479, 640, 3⟩ ∧
    resizeFrameSpec ⟨537, 716, 3⟩ = ⟨480, 640, 3⟩ := by
  constructor
  · decide
  · decide

/-- C9 (amended): frames of width at most 640 pass through unresized; a
frame wider than 640 is scaled to width 640 with the new height given by
the code's binary64 evaluation of `int(height * (640 / width))` (which can
differ from the exact `floor(height * 640 / width)`); a 1280×720 frame
becomes exactly 640×360. -/
theorem resize_caps_width_at_640 :
    (∀ f : Frame, f.width ≤ 640 → resizeFrame f = f) ∧
    (∀ f : Frame, 640 < f.width → resizeFrame f =
      ⟨pyResizeHeight f.height f.width, 640, f.channels⟩) ∧
    resizeFrame ⟨720, 1280, 3⟩ = ⟨360, 640, 3⟩ := by
  refine ⟨?_, ?_, by decide⟩
  · intro f h
    rw [resizeFrame, if_neg (by omega)]
  · intro f h
    rw [resizeFrame, if_pos h]

/-- Witness for C9's amended theorem: a 640-wide frame is untouched and a
716-wide frame is capped to width 640. -/
theorem resize_caps_width_at_640_witness :
    resizeFrame ⟨480, 640, 3⟩ = ⟨480, 640, 3⟩ ∧
    resizeFrame ⟨537, 716, 3⟩ = ⟨pyResizeHeight 537 716, 640, 3⟩ :=
  ⟨resize_caps_width_at_640.1 ⟨480, 640, 3⟩ (by decide),
   resize_caps_width_at_640.2.1 ⟨537, 716, 3⟩ (by decide)⟩

theorem recvFuel_eq_fuelOut_iff (reads : ℕ → Option Frame) :
    ∀ fuel k, recvFuel reads k fuel = RecvResult.fuelOut ↔
      ∀ j < fuel, reads (k + j) = none := by
  intro fuel
  induction fuel with
  | zero => intro k; simp [recvFuel]
  | succ n ih =>
    intro k
    cases h : reads k with
    | some f =>
      simp only [recvFuel, h]
      constructor
      · intro hfalse; exact absurd hfalse (by simp)
      · intro hAll
        have h0 := hAll 0 (by omega)
        rw [Nat.add_zero] at h0
        rw [h0] at h
        exact absurd h (by simp)
    | none =>
      simp only [recvFuel, h]
      rw [ih (k + 1)]
      constructor
      · intro hAll j hj
        cases j with
        | zero => simpa using h
        | succ j' =>
          have := hAll j' (by omega)
          have e : k + 1 + j' = k + (j' + 1) := by omega
          rwa [e] at this
      · intro hAll j hj
        have := hAll (j + 1) (by omega)
        have e : k + (j + 1) = k + 1 + j := by omega
        rwa [e] at this

theorem recvFuel_first_success (reads : ℕ → Option Frame) :
    ∀ fuel k j f, j < fuel → (∀ i < j, reads (k + i) = none) →
      reads (k + j) = some f →
      recvFuel reads k fuel = RecvResult.frame (resizeFrame f) ∧
      recvSleeps reads k fuel = 33 * j := by
  intro fuel
  induction fuel with
  | zero => intro k j f hj _ _; omega
  | succ n ih =>
    intro k j f hj hBefore hAt
    cases j with
    | zero =>
      rw [Nat.add_zero] at hAt
      constructor
      · simp [recvFuel, hAt]
      · simp [recvSleeps, hAt]
    | succ j' =>
      have h0 : reads k = none := by
        have := hBefore 0 (by omega)
        rwa [Nat.add_zero] at this
      have hAt' : reads (k + 1 + j') = some f := by
        have e : k + (j' + 1) = k + 1 + j' := by omega
        rwa [e] at hAt
      have hBefore' : ∀ i < j', reads (k + 1 + i) = none := by
        intro i hi
        have := hBefore (i + 1) (by omega)
        have e : k + (i + 1) = k + 1 + i := by omega
        rwa [e] at this
      have := ih (k + 1) j' f (by omega) hBefore' hAt'
      constructor
      · simp only [recvFuel, h0]
        exact this.1
      · simp only [recvSleeps, h0]
        rw [this.2]
        ring

/-- C1 counterexample: for a source whose every read fails, the recursive
retry of `recv` never reaches a terminal outcome: no amount of fuel makes
the unfolding return, so the read loop is not total, no bound of
consecutive failures stops pumping, and no degraded exit is ever taken. -/
theorem recv_diverges_on_always_failing_source :
    ¬ ∃ fuel, recvFuel (fun _ => none) 0 fuel ≠ RecvResult.fuelOut := by
  rintro ⟨fuel, hne⟩
  exact hne ((recvFuel_eq_fuelOut_iff (fun _ => none) fuel 0).mpr (fun j _ => rfl))

/-- C1 (amended): on read failure `recv` waits 33 ms and retries by
recursing into itself with no bound and no `degraded` exit: an unfolding
exhausts its fuel exactly when every read in the window fails, and when
the first success is the `j`-th read the pump returns that frame (resized)
after sleeping exactly `33 * j` ms. -/
theorem recv_retries_unbounded (reads : ℕ → Option Frame) (fuel : ℕ) :
    (recvFuel reads 0 fuel = RecvResult.fuelOut ↔ ∀ j < fuel, reads j = none) ∧
    (∀ j f, j < fuel → (∀ i < j, reads i = none) → reads j = some f →
      recvFuel reads 0 fuel = RecvResult.frame (resizeFrame f) ∧
      recvSleeps reads 0 fuel = 33 * j) := by
  constructor
  · rw [recvFuel_eq_fuelOut_iff reads fuel 0]
    constructor
    · intro hAll j hj; have := hAll j hj; rwa [Nat.zero_add] at this
    · intro hAll j hj; rw [Nat.zero_add]; exact hAll j hj
  · intro j f hj hBefore hAt
    refine recvFuel_first_success reads fuel 0 j f hj ?_ ?_
    · intro i hi; rw [Nat.zero_add]; exact hBefore i hi
    · rwa [Nat.zero_add]

/-- Witness for C1's amended theorem: two failed reads cost 66 ms of sleep
before the third read's frame is returned. -/
theorem recv_retries_unbounded_witness :
    recvFuel failThenGood 0 5 = RecvResult.frame (resizeFrame ⟨480, 640, 3⟩) ∧
    recvSleeps failThenGood 0 5 = 66 :=
  (recv_retries_unbounded failThenGood 5).2 2 ⟨480, 640, 3⟩ (by omega)
    (by decide) (by decide)

theorem runMsgs_chain (msgs : List Msg) :
    ∀ s : SState, s = SState.awaitingAnswer ∨ s = SState.connected →
      List.Chain' (fun a b => allowedStep a b = true) (s :: runMsgs s msgs) := by
  induction msgs with
  | nil =>
    rintro s (rfl | rfl) <;>
      exact List.Chain'.cons (by decide) (List.chain'_singleton _)
  | cons m ms ih =>
    rintro s (rfl | rfl) <;> cases m <;> simp only [runMsgs, step] <;>
      first
        | exact List.Chain'.cons (by decide) (List.chain'_singleton _)
        | exact List.Chain'.cons (by decide) (ih _ (Or.inl rfl))
        | exact List.Chain'.cons (by decide) (ih _ (Or.inr rfl))

/-- C5 (amended): every observed state sequence of a session follows the
lifecycle `new, offerCreated, awaitingAnswer, connected` with optional
terminal `closed` or `failed`: each consecutive pair is either a stutter
in a live state, one forward move along the chain, or a jump to a
terminal state, and every admitted move is rank-non-decreasing with
strict increase on any change of state — so no state is revisited after
being left.  Unparsable messages fail the session, but a parseable
message with an unrecognized action (e.g. a renegotiation offer) is
silently ignored and does not move the session to `failed`. -/
theorem session_trace_follows_lifecycle (hasTracks : Bool) (msgs : List Msg) :
    List.Chain' (fun a b => allowedStep a b = true) (sessionTrace hasTracks msgs) ∧
    (∀ s t : SState, allowedStep s t = true →
      rank s ≤ rank t ∧ (rank s = rank t → s = t)) := by
  constructor
  · cases hasTracks with
    | false => exact List.Chain'.cons (by decide) (List.chain'_singleton _)
    | true =>
      exact List.Chain'.cons (by decide) (List.Chain'.cons (by decide)
        (runMsgs_chain msgs SState.awaitingAnswer (Or.inl rfl)))
  · intro s t
    cases s <;> cases t <;> decide

/-- Witness for C5's amended theorem on a concrete message sequence
(one candidate, the answer, then a bye). -/
theorem session_trace_follows_lifecycle_witness :
    List.Chain' (fun a b => allowedStep a b = true)
      (sessionTrace true [Msg.ice, Msg.answer, Msg.bye]) :=
  (session_trace_follows_lifecycle true [Msg.ice, Msg.answer, Msg.bye]).1

/-- C5 counterexample: a well-formed but out-of-order signaling message —
a renegotiation `offer` arriving while connected, which the spec says is a
protocol error — matches no branch of the dispatch and is silently
ignored: the session stays `connected` instead of moving to `failed`. -/
theorem unknown_action_ignored_not_failed :
    step SState.connected (Msg.other "offer") = SState.connected ∧
    SState.connected ≠ SState.failed := by
  decide

/-- C6 counterexample: closing a 2-track session whose captures are both
open performs zero `release()` calls — not one per track: the `finally`
block only closes the peer connection, so "released exactly once, never
zero, when the session closes" fails on the close path. -/
theorem close_path_releases_nothing :
    releasesAtClose [⟨true, true⟩, ⟨true, true⟩] = 0 ∧ (0 : ℕ) ≠ 2 := by
  decide

/-- C6 (amended): the session close path itself releases no handles;
each track's handle is released at most once, by the guarded finalizer:
finalizing a track twice still performs exactly one release when the
capture was open, and none when it was never opened — so a degraded track
that already released its capture is not released again. -/
theorem track_released_at_most_once (t : TrackCap) (ts : List TrackCap) :
    (trackDel t).2 + (trackDel (trackDel t).1).2 =
      (if t.hasCap && t.capOpen then 1 else 0) ∧
    (trackDel t).2 ≤ 1 ∧
    releasesAtClose ts = 0 := by
  obtain ⟨hc, co⟩ := t
  cases hc <;> cases co <;> exact ⟨by decide, by decide, rfl⟩

/-- C7: when the local subnet cannot be determined the scan attempt fails
(`none` outcome, the `NetworkUnavailable` case) and the published
registry — and everything else — is exactly as before: no oracle is even
consulted and no partial result is produced. -/
theorem failed_subnet_scan_changes_nothing (ping : Host → Bool)
    (portOpen : Host → Port → Bool) (test retest : StreamTest)
    (registry : List CameraInfo) :
    scan_for_cameras none ping portOpen test retest registry = (none, registry) :=
  rfl

theorem stdPathHit_spec (test : StreamTest) (h : Host) (p : Port)
    (cam : CameraInfo) (hyp : stdPathHit test h p = some cam) :
    cam.ip = h ∧ cam.port = p ∧ test h p cam.path = some (cam.url, cam.kind) := by
  obtain ⟨path, _, hEq⟩ := List.exists_of_findSome?_eq_some hyp
  cases ht : test h p path with
  | none => rw [ht] at hEq; simp at hEq
  | some uk =>
    rw [ht] at hEq
    simp only [Option.map_some', Option.some.injEq] at hEq
    subst hEq
    exact ⟨rfl, rfl, by simp [ht]⟩

theorem manuHit_spec (test : StreamTest) (h : Host) (p : Port)
    (cam : CameraInfo) (hyp : manuHit test h p = some cam) :
    cam.ip = h ∧ cam.port = p ∧ test h p cam.path = some (cam.url, cam.kind) := by
  obtain ⟨mc, _, hEq⟩ := List.exists_of_findSome?_eq_some hyp
  by_cases hp : p ∈ mc.2.ports
  · rw [if_pos hp] at hEq
    obtain ⟨path, _, hEq2⟩ := List.exists_of_findSome?_eq_some hEq
    cases ht : test h p path with
    | none => rw [ht] at hEq2; simp at hEq2
    | some uk =>
      rw [ht] at hEq2
      simp only [Option.map_some', Option.some.injEq] at hEq2
      subst hEq2
      exact ⟨rfl, rfl, by simp [ht]⟩
  · rw [if_neg hp] at hEq
    exact absurd hEq (by simp)

theorem scanPort_spec (test : StreamTest) (h : Host) (p : Port)
    (cam : CameraInfo) (hyp : scanPort test h p = some cam) :
    cam.ip = h ∧ cam.port = p ∧ test h p cam.path = some (cam.url, cam.kind) := by
  rw [scanPort] at hyp
  cases hstd : stdPathHit test h p with
  | some c =>
    rw [hstd] at hyp
    cases hyp
    exact stdPathHit_spec test h p cam hstd
  | none =>
    rw [hstd] at hyp
    exact manuHit_spec test h p cam hyp

/-- C4: every camera in the registry published by a completed scan passed
stream validation in the first-find pass (its record was built from a
successful `test_camera_stream` call on its host, port and path) and
again in the phase-4 revalidation pass; a candidate succeeding in only
one of the two passes is never published. -/
theorem published_cameras_validated_in_both_passes
    (hosts : List Host) (ping : Host → Bool) (portOpen : Host → Port → Bool)
    (test retest : StreamTest) (registry : List CameraInfo) (cam : CameraInfo)
    (hmem : cam ∈ (scan_for_cameras (some hosts) ping portOpen test retest registry).2) :
    test cam.ip cam.port cam.path = some (cam.url, cam.kind) ∧
    (retest cam.ip cam.port cam.path).isSome = true := by
  have hmem' : cam ∈ ((hosts.filter ping).map
      (scan_host_ports portOpen test)).flatten.filter
        (fun c => (retest c.ip c.port c.path).isSome) := hmem
  rw [List.mem_filter] at hmem'
  obtain ⟨hfound, hretest⟩ := hmem'
  rw [List.mem_flatten] at hfound
  obtain ⟨l, hl, hcam⟩ := hfound
  rw [List.mem_map] at hl
  obtain ⟨host, _, rfl⟩ := hl
  rw [scan_host_ports, List.mem_filterMap] at hcam
  obtain ⟨p, _, hscan⟩ := hcam
  obtain ⟨hip, hport, htest⟩ := scanPort_spec test host p cam hscan
  rw [← hip, ← hport] at htest
  exact ⟨htest, hretest⟩

/-- Witness for C4's theorem: in a one-host scan that finds and then
revalidates one camera, the published record indeed carries a
double-validated (host, port, path). -/
theorem published_cameras_validated_in_both_passes_witness :
    w4test 5 80 "/video" = some ("http://cam5", StreamKind.mjpeg) ∧
    (w4test 5 80 "/video").isSome = true :=
  published_cameras_validated_in_both_passes oneHost (fun _ => true)
    w4portOpen w4test w4test []
    ⟨5, 80, "http://cam5", StreamKind.mjpeg, "/video", "unknown"⟩
    (by decide)

theorem takeUntilHit_subset (test : StreamTest) (h : Host) (p : Port) :
    ∀ l q, q ∈ takeUntilHit test h p l → q ∈ l := by
  intro l
  induction l with
  | nil => simp [takeUntilHit]
  | cons a rest ih =>
    intro q hq
    rw [takeUntilHit] at hq
    by_cases hs : (test h p a).isSome
    · rw [if_pos hs] at hq
      rcases List.mem_singleton.mp hq with rfl
      exact List.mem_cons_self _ _
    · rw [if_neg hs] at hq
      rcases List.mem_cons.mp hq with rfl | hq'
      · exact List.mem_cons_self _ _
      · exact List.mem_cons.mpr (Or.inr (ih q hq'))

theorem manuTried_spec (test : StreamTest) (h : Host) (p : Port) :
    ∀ ml q, q ∈ manuTried test h p ml →
      ∃ mc ∈ ml, p ∈ mc.2.ports ∧ q ∈ mc.2.paths := by
  intro ml
  induction ml with
  | nil => simp [manuTried]
  | cons mc rest ih =>
    intro q hq
    rw [manuTried] at hq
    by_cases hp : p ∈ mc.2.ports
    · rw [if_pos hp] at hq
      rcases List.mem_append.mp hq with h1 | h2
      · exact ⟨mc, List.mem_cons_self _ _, hp, takeUntilHit_subset test h p _ q h1⟩
      · by_cases hhit : ((mc.2.paths.findSome? fun path => test h p path)).isSome
        · rw [if_pos hhit] at h2
          exact absurd h2 (List.not_mem_nil q)
        · rw [if_neg hhit] at h2
          obtain ⟨mc', hmc', hrest⟩ := ih q h2
          exact ⟨mc', List.mem_cons.mpr (Or.inr hmc'), hrest⟩
    · rw [if_neg hp] at hq
      obtain ⟨mc', hmc', hrest⟩ := ih q hq
      exact ⟨mc', List.mem_cons.mpr (Or.inr hmc'), hrest⟩

theorem stdPathHit_none_iff (test : StreamTest) (h : Host) (p : Port) :
    stdPathHit test h p = none ↔ ∀ q ∈ CAMERA_PATHS.take 10, test h p q = none := by
  rw [stdPathHit, List.findSome?_eq_none_iff]
  constructor
  · intro hall q hq
    have := hall q hq
    exact Option.map_eq_none'.mp this
  · intro hall q hq
    rw [hall q hq]
    rfl

/-- C10 (amended): the standard path list has 39 entries (not 40); against
an open port the first-find pass attempts only its first 10 entries, and
every other path it ever attempts — covering the remaining 29 standard
paths reachable this way — comes from a manufacturer fallback entry whose
port list contains the port, and only after all of the first 10 standard
paths failed to stream. -/
theorem first_ten_then_manufacturer_only :
    CAMERA_PATHS.length = 39 ∧
    ∀ (test : StreamTest) (h : Host) (p : Port) (q : String),
      q ∈ triedPaths test h p →
        q ∈ CAMERA_PATHS.take 10 ∨
        ((∀ r ∈ CAMERA_PATHS.take 10, test h p r = none) ∧
          ∃ mc ∈ MANUFACTURER_DEFAULTS, p ∈ mc.2.ports ∧ q ∈ mc.2.paths) := by
  refine ⟨rfl, ?_⟩
  intro test h p q hq
  rw [triedPaths] at hq
  rcases List.mem_append.mp hq with h1 | h2
  · exact Or.inl (takeUntilHit_subset test h p _ q h1)
  · by_cases hstd : (stdPathHit test h p).isSome
    · rw [if_pos hstd] at h2
      exact absurd h2 (List.not_mem_nil q)
    · rw [if_neg hstd] at h2
      refine Or.inr ⟨?_, manuTried_spec test h p _ q h2⟩
      exact (stdPathHit_none_iff test h p).mp (Option.not_isSome_iff_eq_none.mp hstd)

/-- C10 counterexample: the standard path list `CAMERA_PATHS` has 39
entries, not 40 as the claim states (so 29, not 30, remain beyond the
first 10). -/
theorem camera_paths_has_39_entries :
    CAMERA_PATHS.length = 39 ∧ CAMERA_PATHS.length ≠ 40 := by
  exact ⟨rfl, by decide⟩

/-- Witness for C10's amended theorem: with no standard path streaming on
port 80, the axis fallback path is attempted and is indeed accounted for
by a manufacturer entry containing port 80. -/
theorem first_ten_then_manufacturer_only_witness :
    "/axis-cgi/mjpg/video.cgi" ∈ CAMERA_PATHS.take 10 ∨
    ((∀ r ∈ CAMERA_PATHS.take 10, noneTest 1 80 r = none) ∧
      ∃ mc ∈ MANUFACTURER_DEFAULTS, 80 ∈ mc.2.ports ∧
        "/axis-cgi/mjpg/video.cgi" ∈ mc.2.paths) :=
  first_ten_then_manufacturer_only.2 noneTest 1 80 "/axis-cgi/mjpg/video.cgi"
    (by decide)

theorem buildTracks_eq (openOk : CameraInfo → Bool) :
    ∀ l, buildTracks openOk l =
      (l.filter openOk).map fun cam => (⟨cam.url, cam.kind⟩ : Track) := by
  intro l
  induction l with
  | nil => rfl
  | cons cam rest ih =>
    rw [buildTracks]
    by_cases hc : openOk cam
    · rw [if_pos hc, ih, List.filter_cons_of_pos hc, List.map_cons]
    · rw [if_neg hc, ih, List.filter_cons_of_neg hc]

/-- C8: a camera source that fails to open causes only that track to be
omitted — the attached tracks are exactly those of the selected cameras
whose source opened; when none opened the session emits no offer (the
`NoSourcesAvailable` early return); when at least one opened the session
proceeds and offers exactly the surviving tracks. -/
theorem failed_source_open_omits_only_that_track
    (registry : List CameraInfo) (openOk : CameraInfo → Bool) :
    (sessionSetup registry openOk).1 =
      ((registry.take 2).filter openOk).map
        (fun cam => (⟨cam.url, cam.kind⟩ : Track)) ∧
    ((sessionSetup registry openOk).2 = [] ↔
      ∀ cam ∈ registry.take 2, openOk cam = false) ∧
    ((∃ cam ∈ registry.take 2, openOk cam = true) →
      (sessionSetup registry openOk).2 =
        [OutMsg.offer (sessionSetup registry openOk).1]) := by
  have hbt := buildTracks_eq openOk (registry.take 2)
  have hempty : (buildTracks openOk (registry.take 2)).isEmpty = true ↔
      ∀ cam ∈ registry.take 2, openOk cam = false := by
    rw [hbt, List.isEmpty_iff, List.map_eq_nil_iff, List.filter_eq_nil_iff]
    constructor
    · intro hall cam hcam
      exact Bool.not_eq_true _ ▸ Bool.eq_false_iff.mpr (fun hca => hall cam hcam hca)
    · intro hall cam hcam hca
      rw [hall cam hcam] at hca
      cases hca
  refine ⟨?_, ?_, ?_⟩
  · by_cases he : (buildTracks openOk (registry.take 2)).isEmpty
    · show (sessionSetup registry openOk).1 = _
      rw [sessionSetup]
      simp only [if_pos he]
      exact hbt
    · show (sessionSetup registry openOk).1 = _
      rw [sessionSetup]
      simp only [if_neg he]
      exact hbt
  · by_cases he : (buildTracks openOk (registry.take 2)).isEmpty
    · constructor
      · intro _; exact hempty.mp he
      · intro _
        show (if (buildTracks openOk (registry.take 2)).isEmpty then _ else _ :
          List Track × List OutMsg).2 = ([] : List OutMsg)
        rw [if_pos he]
    · constructor
      · intro habs
        have : (if (buildTracks openOk (registry.take 2)).isEmpty then
            (buildTracks openOk (registry.take 2), ([] : List OutMsg))
          else (buildTracks openOk (registry.take 2),
            [OutMsg.offer (buildTracks openOk (registry.take 2))])).2 =
            ([] : List OutMsg) := habs
        rw [if_neg he] at this
        cases this
      · intro hall
        exact absurd (hempty.mpr hall) he
  · intro ⟨cam, hcam, hok⟩
    have hne : ¬ (buildTracks openOk (registry.take 2)).isEmpty = true := by
      intro he
      have := hempty.mp he cam hcam
      rw [hok] at this
      cases this
    show (if (buildTracks openOk (registry.take 2)).isEmpty then _ else _ :
      List Track × List OutMsg).2 = _
    rw [if_neg hne]
    show [OutMsg.offer (buildTracks openOk (registry.take 2))] = _
    congr 1
    show OutMsg.offer _ = OutMsg.offer ((sessionSetup registry openOk).1)
    congr 1
    show buildTracks openOk (registry.take 2) =
      (if (buildTracks openOk (registry.take 2)).isEmpty then _ else _ :
        List Track × List OutMsg).1
    rw [if_neg hne]

/-- Witness for C8's theorem: with one of two sources failing to open,
the session still emits an offer over the surviving track. -/
theorem failed_source_open_omits_only_that_track_witness :
    (sessionSetup [camA, camB] openOnlyB).2 =
      [OutMsg.offer (sessionSetup [camA, camB] openOnlyB).1] :=
  (failed_source_open_omits_only_that_track [camA, camB] openOnlyB).2.2
    ⟨camB, by decide, by decide⟩

end JetsonApp
